import Mathlib

/-!
Verification development for `src/DLEAMSE/search_vectors_against_index.py`
(bigbio/mslookup): building a FAISS similarity-search index over embedded
spectra vectors, searching it, and persisting the results.

Vectors are embedded as lists of rationals (exact stand-ins for the
program's 32-bit floats), corpora and query batches as lists of vectors.
The FAISS index itself lives in the external `faiss` library; its search
semantics are modelled from the specification (squared-L2 k-NN with
ties broken by lowest corpus id, sentinel padding when fewer than k
neighbours exist), while every function of the repository's own file
(`make_faiss_index`, `write_faiss_index`, `read_faiss_index`,
`load_embedded_spectra_vector`, `search_index`, `write_search_results`,
`create_index`) is translated directly from the source.
-/

namespace MSLookup

/-- Squared L2 distance between two equal-length rational vectors:
the sum of squared coordinate differences (no square root). -/
def sqL2 (u v : List ℚ) : ℚ :=
  (List.zipWith (fun a b => (a - b) ^ 2) u v).sum

/-- Order on (squared distance, corpus id) candidate pairs: smaller
distance first, equal distances broken by the lower corpus id. -/
def lexLe (a b : ℚ × ℕ) : Prop :=
  a.1 < b.1 ∨ (a.1 = b.1 ∧ a.2 ≤ b.2)

instance : DecidableRel lexLe := fun a b => by
  unfold lexLe
  exact inferInstance

instance : IsTotal (ℚ × ℕ) lexLe where
  total a b := by
    rcases lt_trichotomy a.1 b.1 with h | h | h
    · exact Or.inl (Or.inl h)
    · rcases le_total a.2 b.2 with h2 | h2
      · exact Or.inl (Or.inr ⟨h, h2⟩)
      · exact Or.inr (Or.inr ⟨h.symm, h2⟩)
    · exact Or.inr (Or.inl h)

instance : IsTrans (ℚ × ℕ) lexLe where
  trans a b c hab hbc := by
    rcases hab with h1 | ⟨e1, l1⟩ <;> rcases hbc with h2 | ⟨e2, l2⟩
    · exact Or.inl (h1.trans h2)
    · exact Or.inl (lt_of_lt_of_le h1 (le_of_eq e2))
    · exact Or.inl (lt_of_le_of_lt (le_of_eq e1) h2)
    · exact Or.inr ⟨e1.trans e2, l1.trans l2⟩

/-- A returned result slot: (distance, id).  FAISS marks "no result"
slots with an out-of-range distance and id `-1`; we model the padding
distance as `⊤`. -/
def noResultSlot : WithTop ℚ × ℤ := (⊤, -1)

/-- Embed a valid (squared distance, corpus id) candidate as a result slot. -/
def toSlot (p : ℚ × ℕ) : WithTop ℚ × ℤ :=
  ((p.1 : WithTop ℚ), (p.2 : ℤ))

/-- Exact top-k selection over candidate (squared distance, id) pairs:
sort ascending by distance (ties by lower id), keep the first k, pad
with "no result" slots up to length k. -/
def topkPad (pairs : List (ℚ × ℕ)) (k : ℕ) : List (WithTop ℚ × ℤ) :=
  let s := (List.insertionSort lexLe pairs).take k
  s.map toSlot ++ List.replicate (k - s.length) noResultSlot

/-- All (squared distance to q, id) candidate pairs of a stored corpus. -/
def distPairs (xb : List (List ℚ)) (q : List ℚ) : List (ℚ × ℕ) :=
  xb.enum.map (fun p => (sqL2 q p.2, p.1))

/-- Which compute backend an index object lives on (`faiss.get_num_gpus()`
selects gpu at construction / load time). -/
inductive Backend
  | cpu
  | gpu
deriving DecidableEq

/-- A FAISS index as used by the script: either a flat (exact) L2 index
holding the stored vectors, or an IVF-flat (partitioned) L2 index holding
a coarse quantizer's centroids, the per-centroid inverted lists of corpus
ids, the stored vectors and the probe count. -/
inductive FaissIndex
  | flat (backend : Backend) (d : ℕ) (xb : List (List ℚ))
  | ivfflat (backend : Backend) (d : ℕ) (nlist : ℕ) (centroids : List (List ℚ))
      (invlists : List (List ℕ)) (xb : List (List ℚ)) (nprobe : ℕ)
deriving DecidableEq

/-- Modelled from the spec: FlatIndex search for one query — squared L2
distance to every corpus vector, exact top-k by partial sort with ties
broken by lowest corpus id, sentinel slots when fewer than k neighbours
exist.  (The implementation is the external `faiss` library, absent from
`src/`.) -/
def flatSearchRow (xb : List (List ℚ)) (q : List ℚ) (k : ℕ) : List (WithTop ℚ × ℤ) :=
  topkPad (distPairs xb q) k

/-- Index of the centroid nearest to `v` (ties by lower centroid id). -/
def nearestCentroid (centroids : List (List ℚ)) (v : List ℚ) : ℕ :=
  ((List.insertionSort lexLe (distPairs centroids v)).headD (0, 0)).2

/-- The `nprobe` centroid ids nearest to the query. -/
def ivfProbe (centroids : List (List ℚ)) (q : List ℚ) (nprobe : ℕ) : List ℕ :=
  ((List.insertionSort lexLe (distPairs centroids q)).take nprobe).map Prod.snd

/-- Modelled from the spec: PartitionedIndex (IVF) search for one query —
probe the `nprobe` nearest centroids, scan only their inverted lists with
exact distances, return the k smallest found.  (The implementation is the
external `faiss` library, absent from `src/`.) -/
def ivfSearchRow (xb centroids : List (List ℚ)) (invlists : List (List ℕ))
    (nprobe : ℕ) (q : List ℚ) (k : ℕ) : List (WithTop ℚ × ℤ) :=
  let cands := ((ivfProbe centroids q nprobe).map (fun c => invlists.getD c [])).flatten
  topkPad (cands.map (fun i => (sqL2 q (xb.getD i []), i))) k

/-- Search one query against either index kind.  The backend field does
not enter the computation: per the spec the backend is a transparent
choice with identical observable behaviour. -/
def FaissIndex.searchRow : FaissIndex → List ℚ → ℕ → List (WithTop ℚ × ℤ)
  | .flat _ _ xb, q, k => flatSearchRow xb q k
  | .ivfflat _ _ _ cents lists xb np, q, k => ivfSearchRow xb cents lists np q k

/-- `index.search(x, k)`: batch search returning the Q×k squared-distance
matrix `D` and the Q×k id matrix `I`, exactly as FAISS returns them
(squared L2, not yet square-rooted). -/
def FaissIndex.search (index : FaissIndex) (x : List (List ℚ)) (k : ℕ) :
    List (List (WithTop ℚ)) × List (List ℤ) :=
  let rows := x.map (fun q => index.searchRow q k)
  (rows.map (List.map Prod.fst), rows.map (List.map Prod.snd))

/-- `H5_MATRIX_NAME = 'MATRIX'` (module constant of the source file). -/
def H5_MATRIX_NAME : String := "MATRIX"

/-- `DEFAULT_IVF_NLIST = 100` (module constant of the source file). -/
def DEFAULT_IVF_NLIST : ℕ := 100

/-- Replace the backend tag of an index, leaving all data unchanged. -/
def FaissIndex.setBackend : FaissIndex → Backend → FaissIndex
  | .flat _ d xb, b => .flat b d xb
  | .ivfflat _ d nl cents lists xb np, b => .ivfflat b d nl cents lists xb np

/-- `faiss.index_gpu_to_cpu` (external library): move an index to the CPU. -/
def index_gpu_to_cpu (index : FaissIndex) : FaissIndex := index.setBackend .cpu

/-- `faiss.index_cpu_to_gpu` (external library): move an index to the GPU. -/
def index_cpu_to_gpu (index : FaissIndex) : FaissIndex := index.setBackend .gpu

/-- `Faiss_write_index.make_faiss_index(n_dimensions, index_type='flat')`:
if any GPUs are present build a GPU index, else a CPU index; kind `flat`
gives a flat L2 index, kind `ivfflat` an IVF-flat L2 index with
`DEFAULT_IVF_NLIST` clusters, any other kind raises
`ValueError("Unknown index_type ...")`.  `numGpus` stands for
`faiss.get_num_gpus()`. -/
def make_faiss_index (numGpus : ℕ) (n_dimensions : ℕ) (index_type : String) :
    Except String FaissIndex :=
  match numGpus with
  | _ + 1 =>
    if index_type = "flat" then
      .ok (.flat .gpu n_dimensions [])
    else if index_type = "ivfflat" then
      .ok (.ivfflat .gpu n_dimensions DEFAULT_IVF_NLIST [] [] [] 1)
    else
      .error ("Unknown index_type " ++ index_type)
  | 0 =>
    if index_type = "flat" then
      .ok (.flat .cpu n_dimensions [])
    else if index_type = "ivfflat" then
      .ok (.ivfflat .cpu n_dimensions DEFAULT_IVF_NLIST [] [] [] 1)
    else
      .error ("Unknown index_type " ++ index_type)

/-- `index.add(vectors)`: appends vectors to the stored corpus, assigning
each the next sequential id; for the IVF kind each new id is also
appended to the inverted list of its nearest centroid (modelled from the
spec — the implementation is the external `faiss` library). -/
def FaissIndex.add : FaissIndex → List (List ℚ) → FaissIndex
  | .flat b d xb, vs => .flat b d (xb ++ vs)
  | .ivfflat b d nl cents lists xb np, vs =>
    let newIds := vs.enum.map (fun p => (xb.length + p.1, p.2))
    let newLists := lists.enum.map
      (fun cl => cl.2 ++ (newIds.filter (fun p => nearestCentroid cents p.2 == cl.1)).map Prod.fst)
    .ivfflat b d nl cents newLists (xb ++ vs) np

/-- On-disk serialized form of an index, per the spec: kind tag,
dimension and, for the partitioned kind, centroids and inverted lists /
for the flat kind the full corpus.  The backend is not serialized (the
source converts any GPU index to CPU before writing). -/
inductive IndexFile
  | flat (d : ℕ) (xb : List (List ℚ))
  | ivfflat (d : ℕ) (nlist : ℕ) (centroids : List (List ℚ))
      (invlists : List (List ℕ)) (xb : List (List ℚ)) (nprobe : ℕ)
deriving DecidableEq

/-- Modelled from the spec: `faiss.write_index` — serializes a (CPU)
index's kind tag, dimension and payload to a single container file.
(The implementation is the external `faiss` library, absent from `src/`.) -/
def faiss_write (index : FaissIndex) : IndexFile :=
  match index with
  | .flat _ d xb => .flat d xb
  | .ivfflat _ d nl cents lists xb np => .ivfflat d nl cents lists xb np

/-- Modelled from the spec: `faiss.read_index` — deserializes the stored
kind tag, dimension and payload back into a CPU index.  (The
implementation is the external `faiss` library, absent from `src/`.) -/
def faiss_read (file : IndexFile) : FaissIndex :=
  match file with
  | .flat d xb => .flat .cpu d xb
  | .ivfflat d nl cents lists xb np => .ivfflat .cpu d nl cents lists xb np

/-- `Faiss_write_index.write_faiss_index(index, out_filepath)`: if we are
on GPU, convert the index to a CPU index first, then `faiss.write_index`. -/
def write_faiss_index (numGpus : ℕ) (index : FaissIndex) : IndexFile :=
  match numGpus with
  | _ + 1 => faiss_write (index_gpu_to_cpu index)
  | 0 => faiss_write index

/-- `Faiss_Index_Search.read_faiss_index(index_filepath)`:
`faiss.read_index`, then if we are on GPU convert the index to a GPU
index. -/
def read_faiss_index (numGpus : ℕ) (file : IndexFile) : FaissIndex :=
  match numGpus with
  | _ + 1 => index_cpu_to_gpu (faiss_read file)
  | 0 => faiss_read file

/-- `spectra_vectors.shape[1]`: the common dimension of the loaded rows. -/
def dimOf (vs : List (List ℚ)) : ℕ := (vs.headD []).length

/-- `Faiss_write_index.create_index(spectra_vectors, output_path)`:
build an index of the default kind (`flat`) over the vectors' dimension,
add all vectors, and write the index out. -/
def create_index (numGpus : ℕ) (vs : List (List ℚ)) : Except String IndexFile :=
  (make_faiss_index numGpus (dimOf vs) "flat").map
    (fun index => write_faiss_index numGpus (index.add vs))

/-- Errors of the vector loader: the source raises a plain `Exception`
for a missing file, re-raises the h5 read failure, and raises
`ValueError` for an unknown extension. -/
inductive LoadError
  | fileNotFound
  | h5ReadError
  | unsupportedFormat (ext : String)
deriving DecidableEq

/-- The file-system facts the loader consults: which paths exist
(`os.path.exists`), the named dataset an h5 container yields (`None`
when the read raises), and the arrays `np.load` / `np.loadtxt` produce. -/
structure FileSystem where
  hasFile : String → Bool
  h5Dataset : String → String → Option (List (List ℚ))
  npyData : String → List (List ℚ)
  txtData : String → List (List ℚ)

/-- Index of the last `.` in the character list, if any
(Python `str.rfind(".")`, with `none` for the `-1` case). -/
def rfindDot (cs : List Char) : Option ℕ :=
  ((List.range cs.length).filter (fun i => cs.getD i ' ' == '.')).getLast?

/-- `str.lower()`: lower-case every character. -/
def strLower (s : String) : String := String.mk (s.data.map Char.toLower)

/-- `filepath[filepath.rfind("."):].lower()` — the substring from the
last dot (or, when there is no dot, Python's `filepath[-1:]`, i.e. the
last character), lower-cased. -/
def extension_lower (filepath : String) : String :=
  strLower
    (match rfindDot filepath.data with
     | some i => String.mk (filepath.data.drop i)
     | none => String.mk (filepath.data.drop (filepath.data.length - 1)))

/-- `Faiss_Index_Search.load_embedded_spectra_vector(filepath)`: if the
path exists, dispatch on the lower-cased extension — `.h5` reads the
dataset named `MATRIX` (re-raising a failed read), `.npy` reads the raw
binary array, `.txt` reads the whitespace-delimited table; any other
extension raises `ValueError`; a missing path raises an exception. -/
def load_embedded_spectra_vector (fs : FileSystem) (filepath : String) :
    Except LoadError (List (List ℚ)) :=
  if fs.hasFile filepath then
    let extLower := extension_lower filepath
    if extLower = ".h5" then
      match fs.h5Dataset filepath H5_MATRIX_NAME with
      | some result => .ok result
      | none => .error .h5ReadError
    else if extLower = ".npy" then
      .ok (fs.npyData filepath)
    else if extLower = ".txt" then
      .ok (fs.txtData filepath)
    else
      .error (.unsupportedFormat extLower)
  else
    .error .fileNotFound

/-- Payload of one dataset written to the output h5 file. -/
inductive H5Data (α β : Type)
  | ids (l : List ℕ)
  | dmat (m : List (List α))
  | imat (m : List (List β))
deriving DecidableEq

/-- One named dataset of the output h5 file, with its chunking flag. -/
structure H5OutDataset (α β : Type) where
  name : String
  data : H5Data α β
  chunks : Bool
deriving DecidableEq

/-- `Faiss_Index_Search.write_search_results(D, I, outpath)`: writes the
datasets `spectrum_ids` (= `range(D.shape[0])`), `D` and `I`, each with
`chunks=True`. -/
def write_search_results {α β : Type} (D : List (List α)) (I : List (List β)) :
    List (H5OutDataset α β) :=
  [⟨"spectrum_ids", .ids (List.range D.length), true⟩,
   ⟨"D", .dmat D, true⟩,
   ⟨"I", .imat I, true⟩]

/-- Square root of a returned distance entry; the `⊤` padding entry is
carried through unchanged. -/
noncomputable def sqrtT (d : WithTop ℚ) : WithTop ℝ :=
  d.map (fun x : ℚ => Real.sqrt (x : ℝ))

/-- `Faiss_Index_Search.search_index(index, embedded, k)`:
`D, I = index.search(embedded, k)`, then `D = D ** 0.5` — the returned
squared-L2 distances are square-rooted — and `(D, I)` is returned. -/
noncomputable def search_index (index : FaissIndex) (embedded : List (List ℚ)) (k : ℕ) :
    List (List (WithTop ℝ)) × List (List ℤ) :=
  let DI := index.search embedded k
  (DI.1.map (List.map sqrtT), DI.2)

/-! ### Helper lemmas -/

/-- Order on returned result slots: smaller distance first, equal
distances broken by the smaller id ("no result" padding, at distance
`⊤`, sorts last). -/
def lexLeT (a b : WithTop ℚ × ℤ) : Prop :=
  a.1 < b.1 ∨ (a.1 = b.1 ∧ a.2 ≤ b.2)

theorem toSlot_rel {a b : ℚ × ℕ} (h : lexLe a b) : lexLeT (toSlot a) (toSlot b) := by
  unfold lexLeT toSlot
  rcases h with h | ⟨e, l⟩
  · exact Or.inl (WithTop.coe_lt_coe.mpr h)
  · refine Or.inr ⟨?_, ?_⟩
    · show ((a.1 : WithTop ℚ)) = (b.1 : WithTop ℚ)
      exact_mod_cast e
    · show ((a.2 : ℤ)) ≤ (b.2 : ℤ)
      exact_mod_cast l

theorem slot_le_noResult (p : ℚ × ℕ) : lexLeT (toSlot p) noResultSlot :=
  Or.inl (WithTop.coe_lt_top p.1)

theorem pairwise_topkPad (pairs : List (ℚ × ℕ)) (k : ℕ) :
    List.Pairwise lexLeT (topkPad pairs k) := by
  unfold topkPad
  rw [List.pairwise_append]
  refine ⟨?_, ?_, ?_⟩
  · exact List.Pairwise.map toSlot (fun a b h => toSlot_rel h)
      (List.Pairwise.sublist (List.take_sublist k _) (List.sorted_insertionSort lexLe pairs))
  · rw [List.pairwise_replicate]
    exact Or.inr (Or.inr ⟨rfl, le_refl _⟩)
  · intro a ha b hb
    rcases List.mem_map.mp ha with ⟨p, _, rfl⟩
    rw [List.eq_of_mem_replicate hb]
    exact slot_le_noResult p

theorem length_topkPad (pairs : List (ℚ × ℕ)) (k : ℕ) :
    (topkPad pairs k).length = k := by
  unfold topkPad
  simp only [List.length_append, List.length_map, List.length_replicate, List.length_take]
  omega

theorem searchRow_setBackend (index : FaissIndex) (b : Backend) (q : List ℚ) (k : ℕ) :
    (index.setBackend b).searchRow q k = index.searchRow q k := by
  cases index <;> rfl

theorem search_setBackend (index : FaissIndex) (b : Backend) (x : List (List ℚ)) (k : ℕ) :
    (index.setBackend b).search x k = index.search x k := by
  unfold FaissIndex.search
  simp only [searchRow_setBackend]

theorem search_index_setBackend (index : FaissIndex) (b : Backend)
    (x : List (List ℚ)) (k : ℕ) :
    search_index (index.setBackend b) x k = search_index index x k := by
  unfold search_index
  rw [search_setBackend]

theorem faiss_write_setBackend (index : FaissIndex) (b : Backend) :
    faiss_write (index.setBackend b) = faiss_write index := by
  cases index <;> rfl

theorem faiss_read_faiss_write (index : FaissIndex) :
    faiss_read (faiss_write index) = index.setBackend .cpu := by
  cases index <;> rfl

theorem setBackend_setBackend (index : FaissIndex) (b c : Backend) :
    (index.setBackend b).setBackend c = index.setBackend c := by
  cases index <;> rfl

theorem sqrtT_top : sqrtT ⊤ = ⊤ := rfl

theorem rowGetD_map_sqrtT (row : List (WithTop ℚ)) (j : ℕ) :
    (row.map sqrtT).getD j ⊤ = sqrtT (row.getD j ⊤) := by
  induction row generalizing j with
  | nil => simp [sqrtT_top]
  | cons a as ih =>
    cases j with
    | zero => rfl
    | succ n => simpa using ih n

theorem matGetD_map_sqrtT (D : List (List (WithTop ℚ))) (i j : ℕ) :
    ((D.map (List.map sqrtT)).getD i []).getD j ⊤ = sqrtT ((D.getD i []).getD j ⊤) := by
  induction D generalizing i with
  | nil => simp [sqrtT_top]
  | cons row rest ih =>
    cases i with
    | zero => exact rowGetD_map_sqrtT row j
    | succ n => simpa using ih n

theorem create_index_eq (g : ℕ) (vs : List (List ℚ)) :
    create_index g vs = .ok (IndexFile.flat (dimOf vs) vs) := by
  cases g <;> rfl

theorem search_index_read_any (g : ℕ) (f : IndexFile) (embedded : List (List ℚ)) (k : ℕ) :
    search_index (read_faiss_index g f) embedded k = search_index (faiss_read f) embedded k := by
  cases g with
  | zero => rfl
  | succ n => exact search_index_setBackend (faiss_read f) .gpu embedded k

/-- Derived accessor: the number of clusters of the IVF index that
`make_faiss_index` constructs when asked to index the corpus `vs`
(`numGpus` standing for `faiss.get_num_gpus()`). -/
def ivfClusterCount (numGpus : ℕ) (vs : List (List ℚ)) : ℕ :=
  match make_faiss_index numGpus (dimOf vs) "ivfflat" with
  | .ok (.ivfflat _ _ nlist _ _ _ _) => nlist
  | _ => 0

/-- A file system on which every path exists, h5 reads fail, and the
raw-binary and text loaders return fixed small matrices. -/
def demoFS : FileSystem where
  hasFile := fun _ => true
  h5Dataset := fun _ _ => none
  npyData := fun _ => [[0]]
  txtData := fun _ => [[1]]

/-- A file system on which no path exists. -/
def emptyFS : FileSystem where
  hasFile := fun _ => false
  h5Dataset := fun _ _ => none
  npyData := fun _ => []
  txtData := fun _ => []

/-! ### Claims -/

/-- C1: for every index (flat or partitioned), every query batch and
every k, `search_index` returns the distance matrix obtained by applying
the square root exactly once to every entry of the squared-L2 distance
matrix produced by the underlying `index.search` — stated both as a
matrix-map equality and entry by entry. -/
theorem C1_search_index_sqrt_once (index : FaissIndex) (embedded : List (List ℚ)) (k : ℕ) :
    (search_index index embedded k).1 = ((index.search embedded k).1).map (List.map sqrtT) ∧
    ∀ i j : ℕ,
      (((search_index index embedded k).1).getD i []).getD j ⊤ =
        sqrtT ((((index.search embedded k).1).getD i []).getD j ⊤) :=
  ⟨rfl, fun i j => matGetD_map_sqrtT ((index.search embedded k).1) i j⟩

/-- C2: writing a built index with `write_faiss_index` and reading it
back with `read_faiss_index` (under any GPU availability at either end)
yields an index whose search results — distances and ids, in order — are
identical to the original index's for every query batch and k. -/
theorem C2_write_read_roundtrip (gWrite gRead : ℕ) (index : FaissIndex)
    (embedded : List (List ℚ)) (k : ℕ) :
    search_index (read_faiss_index gRead (write_faiss_index gWrite index)) embedded k =
      search_index index embedded k := by
  have hw : write_faiss_index gWrite index = faiss_write index := by
    cases gWrite with
    | zero => rfl
    | succ n => exact faiss_write_setBackend index .cpu
  rw [hw, search_index_read_any, faiss_read_faiss_write]
  exact search_index_setBackend index .cpu embedded k

/-- C3: the loader accepts exactly the three extensions `.h5` (reading
the dataset named `MATRIX` from the hierarchical container), `.npy`
(raw binary array) and `.txt` (whitespace-delimited table); every other
extension of an existing path gives the unsupported-format error, and a
missing path gives the file-not-found error. -/
theorem C3_loader_formats (fs : FileSystem) (p : String) :
    (fs.hasFile p = false → load_embedded_spectra_vector fs p = .error .fileNotFound) ∧
    (fs.hasFile p = true → extension_lower p = ".h5" →
      load_embedded_spectra_vector fs p =
        (match fs.h5Dataset p H5_MATRIX_NAME with
         | some m => .ok m
         | none => .error .h5ReadError)) ∧
    (fs.hasFile p = true → extension_lower p = ".npy" →
      load_embedded_spectra_vector fs p = .ok (fs.npyData p)) ∧
    (fs.hasFile p = true → extension_lower p = ".txt" →
      load_embedded_spectra_vector fs p = .ok (fs.txtData p)) ∧
    (fs.hasFile p = true → extension_lower p ≠ ".h5" → extension_lower p ≠ ".npy" →
      extension_lower p ≠ ".txt" →
      load_embedded_spectra_vector fs p = .error (.unsupportedFormat (extension_lower p))) := by
  refine ⟨fun h => ?_, fun h he => ?_, fun h he => ?_, fun h he => ?_, fun h h1 h2 h3 => ?_⟩
  · simp [load_embedded_spectra_vector, h]
  · simp [load_embedded_spectra_vector, h, he]
  · simp [load_embedded_spectra_vector, h, he]
  · simp [load_embedded_spectra_vector, h, he]
  · simp [load_embedded_spectra_vector, h, h1, h2, h3]

theorem C3_loader_formats_witness :
    load_embedded_spectra_vector demoFS "spectra.dat" =
      .error (.unsupportedFormat (extension_lower "spectra.dat")) :=
  (C3_loader_formats demoFS "spectra.dat").2.2.2.2 rfl (by decide) (by decide) (by decide)

/-- C4: the result writer persists exactly the three datasets
`spectrum_ids` (holding `0..Q-1` for `Q` query rows), `D` (the distance
matrix) and `I` (the id matrix), each with chunked storage. -/
theorem C4_write_search_results_datasets {α β : Type}
    (D : List (List α)) (I : List (List β)) :
    (write_search_results D I).map H5OutDataset.name = ["spectrum_ids", "D", "I"] ∧
    (write_search_results D I).map H5OutDataset.data =
      [.ids (List.range D.length), .dmat D, .imat I] ∧
    (write_search_results D I).map H5OutDataset.chunks = [true, true, true] :=
  ⟨rfl, rfl, rfl⟩

/-- C5 (counterexample): the cluster count used when constructing an IVF
index is NOT proportional to the corpus size — corpora of 200 and of 400
vectors both get 100 clusters, which no positive proportionality constant
allows. -/
theorem C5_cluster_count_not_proportional :
    ¬ ∃ c : ℚ, 0 < c ∧
      ∀ (g : ℕ) (vs : List (List ℚ)), (ivfClusterCount g vs : ℚ) = c * vs.length := by
  rintro ⟨c, hc, h⟩
  have h1 := h 0 (List.replicate 200 [0])
  have h2 := h 0 (List.replicate 400 [0])
  rw [show ivfClusterCount 0 (List.replicate 200 [0]) = 100 from rfl,
    List.length_replicate] at h1
  rw [show ivfClusterCount 0 (List.replicate 400 [0]) = 100 from rfl,
    List.length_replicate] at h2
  push_cast at h1 h2
  linarith

/-- C5 (amended): the cluster count used when constructing an IVF index
is the fixed default `DEFAULT_IVF_NLIST = 100`, independent of the corpus
and of GPU availability. -/
theorem C5_cluster_count_constant (g : ℕ) (vs : List (List ℚ)) :
    ivfClusterCount g vs = DEFAULT_IVF_NLIST := by
  cases g <;> rfl

/-- C6: for a non-empty corpus, flat search returns exactly k result
slots ordered by non-decreasing distance with equal distances broken by
the lower corpus id (the order `lexLeT`, under which the `⊤`-distance
"no result" padding sorts last). -/
theorem C6_flat_search_sorted (xb : List (List ℚ)) (_hne : xb ≠ [])
    (q : List ℚ) (k : ℕ) :
    List.Pairwise lexLeT (flatSearchRow xb q k) ∧ (flatSearchRow xb q k).length = k :=
  ⟨pairwise_topkPad _ _, length_topkPad _ _⟩

theorem C6_flat_search_sorted_witness :
    List.Pairwise lexLeT (flatSearchRow [[0], [1]] [0] 2) ∧
      (flatSearchRow [[0], [1]] [0] 2).length = 2 :=
  C6_flat_search_sorted [[0], [1]] (by simp) [0] 2

/-- C7: searching a 1-vector corpus with k = 5 returns exactly 1 valid
neighbour followed by 4 "no result" slots, and searching a 0-vector
corpus succeeds and returns only "no result" slots (an empty result,
not an error). -/
theorem C7_fewer_than_k :
    (∀ v q : List ℚ, flatSearchRow [v] q 5 =
      ((sqL2 q v : WithTop ℚ), (0 : ℤ)) :: List.replicate 4 noResultSlot) ∧
    (∀ (q : List ℚ) (k : ℕ), flatSearchRow [] q k = List.replicate k noResultSlot) := by
  refine ⟨fun v q => rfl, fun q k => ?_⟩
  simp [flatSearchRow, topkPad, distPairs, List.take_nil]

/-- C8: the GPU and CPU code paths are observationally equivalent — for
either index kind the constructed index serializes to the same file
whether or not GPUs are present, and the full build-write-read-search
pipeline produces identical results with and without GPUs. -/
theorem C8_gpu_cpu_equiv :
    (∀ (g d : ℕ) (t : String),
      (make_faiss_index g d t).map faiss_write = (make_faiss_index 0 d t).map faiss_write) ∧
    (∀ (g : ℕ) (vs embedded : List (List ℚ)) (k : ℕ),
      (create_index g vs).map (fun f => search_index (read_faiss_index g f) embedded k) =
        (create_index 0 vs).map (fun f => search_index (read_faiss_index 0 f) embedded k)) := by
  constructor
  · intro g d t
    cases g with
    | zero => rfl
    | succ n =>
      by_cases h1 : t = "flat"
      · subst h1; rfl
      · by_cases h2 : t = "ivfflat"
        · subst h2; rfl
        · simp [make_faiss_index, h1, h2, Except.map]
  · intro g vs embedded k
    rw [create_index_eq, create_index_eq]
    simp only [Except.map]
    rw [search_index_read_any]
    rfl

/-- C9: the wrapper `search_index` returns the id matrix of the
underlying `index.search` completely unchanged — only the distance
matrix is transformed. -/
theorem C9_search_index_preserves_ids (index : FaissIndex) (embedded : List (List ℚ)) (k : ℕ) :
    (search_index index embedded k).2 = (index.search embedded k).2 := rfl

/-- C10: the loader checks path existence before the extension: a
missing path always gives the file-not-found error (whatever its
extension), so the unsupported-format error can only arise for existing
paths. -/
theorem C10_existence_before_extension (fs : FileSystem) (p : String) :
    (fs.hasFile p = false → load_embedded_spectra_vector fs p = .error .fileNotFound) ∧
    (∀ e : String, load_embedded_spectra_vector fs p = .error (.unsupportedFormat e) →
      fs.hasFile p = true) := by
  constructor
  · intro h
    simp [load_embedded_spectra_vector, h]
  · intro e he
    by_contra hfalse
    rw [Bool.not_eq_true] at hfalse
    simp [load_embedded_spectra_vector, hfalse] at he

theorem C10_existence_before_extension_witness :
    load_embedded_spectra_vector emptyFS "missing.xyz" = .error .fileNotFound :=
  (C10_existence_before_extension emptyFS "missing.xyz").1 rfl

end MSLookup
